import Mathlib

/-!
Verification of the robot control/coordination core (`src/action/`):
the motor state machine (`motor_controller.py`), the safety monitor
(`safety_monitor.py`), and the shared serial channel discipline of
`_send_command`, as wired together by `hardware_integration.py`.

The embedding is shallow and executable: each Python method becomes a pure
Lean function on an explicit state record.  `await`-free blocks of the
single-threaded asyncio program are atomic, so each method body (which
performs no suspension between its state mutations other than channel I/O,
modelled by an explicit response oracle) becomes one state-transformer.
Serial writes are recorded in an append-only log; devices responses are
supplied as `Option String` arguments (`none` models a timeout, i.e.
`_send_command` returning `None`).  Floats carrying sensor distances and
timestamps are modelled as rationals (every value appearing in the program
and in the scenarios is exactly representable).
-/

namespace RobotAi

/-- `MotorDirection` from `motor_controller.py` (enum of command strings). -/
inductive MotorDirection
  | forward
  | backward
  | turn_left
  | turn_right
  | stop
deriving DecidableEq

/-- `SafetyLevel` from `safety_monitor.py`. -/
inductive SafetyLevel
  | safe
  | warning
  | danger
  | emergency
deriving DecidableEq

/-- `SafetyAlert` from `safety_monitor.py`. -/
inductive SafetyAlert
  | obstacle_too_close
  | sensor_failure
  | communication_lost
  | manual_emergency
  | system_error
deriving DecidableEq

/-- `MotorState` dataclass from `motor_controller.py`. -/
structure MotorState where
  direction : MotorDirection
  speed : Int
  is_moving : Bool
  last_command_time : ℚ
deriving DecidableEq

/-- The mutable state of a `MotorController`: its `motor_state`, the
`_is_emergency_stopped` latch, the config-derived `max_speed` / `base_speed`,
and the channel write log (each entry one full command line written by
`_send_command`). -/
structure Motor where
  motor_state : MotorState
  is_emergency_stopped : Bool
  max_speed : Int
  base_speed : Int
  log : List String
deriving DecidableEq

/-- Bool test: `needle` occurs as a contiguous sublist of `hay`
(Python's `needle in hay` on strings, used for acknowledgement checks). -/
def infixOf (needle : List Char) : List Char → Bool
  | [] => needle.isEmpty
  | c :: t => needle.isPrefixOf (c :: t) || infixOf needle t

/-- Python `ack in response` where `response` may be `None`
(`if response and "ACK" in response:`). -/
def ackOk (r : Option String) (ack : String) : Bool :=
  match r with
  | some s => infixOf ack.data s.data
  | none => false

/-- `_send_command`'s externally visible effect on the channel: the command
line is written (appended to the log).  The device's response, if any, is
supplied by the caller's oracle argument. -/
def sendCommand (m : Motor) (cmd : String) : Motor :=
  { m with log := m.log ++ [cmd] }

/-- `MotorController.stop` (motor_controller.py:276-289): writes `STOP`,
and on an acknowledgement containing `ACTION:STOP` updates the motor state;
otherwise returns failure with the state unchanged (apart from the write). -/
def Motor.stopCmd (r : Option String) (t : ℚ) (m : Motor) : Bool × Motor :=
  let m1 := sendCommand m "STOP"
  if ackOk r "ACTION:STOP" then
    (true, { m1 with motor_state := { m1.motor_state with direction := MotorDirection.stop, is_moving := false, last_command_time := t } })
  else
    (false, m1)

/-- `MotorController.emergency_stop` (motor_controller.py:306-319): sets the
`_is_emergency_stopped` latch (no suspension point before it), then issues
`stop()` on the channel and returns its result. -/
def Motor.emergency_stop (r : Option String) (t : ℚ) (m : Motor) : Bool × Motor :=
  Motor.stopCmd r t { m with is_emergency_stopped := true }

/-- `MotorController.resume_from_emergency` (motor_controller.py:321-325). -/
def Motor.resume_from_emergency (m : Motor) : Bool × Motor :=
  (true, { m with is_emergency_stopped := false })

/-- Python's `a or b` on an optional int and an int (`None` and `0` are
falsy). -/
def pyOrOpt (a : Option Int) (b : Int) : Int :=
  match a with
  | some v => if v = 0 then b else v
  | none => b

/-- Python's `a or b` on two ints (`0` is falsy). -/
def pyOrInt (a b : Int) : Int :=
  if a = 0 then b else a

/-- `speed or self.motor_state.speed or self.base_speed`
(motor_controller.py:182 and the three analogous lines). -/
def effectiveSpeed (speed : Option Int) (cur base : Int) : Int :=
  pyOrOpt speed (pyOrInt cur base)

/-- Common body of `move_forward` / `move_backward` / `turn_left` /
`turn_right` (motor_controller.py:176-274); the four methods are literally
identical up to the command string, acknowledgement substring and recorded
direction.  Rejected immediately (state untouched, nothing written) while the
emergency latch is set; otherwise a `SET_SPEED:` line is written first when
the effective speed differs from the current one (and `motor_state.speed` is
updated right away, before the directional command's outcome is known), then
the directional command is written and the state is updated only if the
response contains the expected acknowledgement. -/
def directionalMove (cmd ack : String) (d : MotorDirection)
    (speed : Option Int) (r : Option String) (t : ℚ) (m : Motor) : Bool × Motor :=
  if m.is_emergency_stopped then
    (false, m)
  else
    let e := effectiveSpeed speed m.motor_state.speed m.base_speed
    let m1 :=
      if e ≠ m.motor_state.speed then
        let ms := sendCommand m ("SET_SPEED:" ++ toString e)
        { ms with motor_state := { ms.motor_state with speed := e } }
      else m
    let m2 := sendCommand m1 cmd
    if ackOk r ack then
      (true, { m2 with motor_state := { m2.motor_state with direction := d, is_moving := true, last_command_time := t } })
    else
      (false, m2)

/-- `MotorController.move_forward` (motor_controller.py:176-201). -/
def Motor.move_forward (speed : Option Int) (r : Option String) (t : ℚ)
    (m : Motor) : Bool × Motor :=
  directionalMove "MOVE_FORWARD" "ACTION:MOVE_FORWARD" MotorDirection.forward speed r t m

/-- `MotorController.move_backward` (motor_controller.py:203-226). -/
def Motor.move_backward (speed : Option Int) (r : Option String) (t : ℚ)
    (m : Motor) : Bool × Motor :=
  directionalMove "MOVE_BACKWARD" "ACTION:MOVE_BACKWARD" MotorDirection.backward speed r t m

/-- `MotorController.turn_left` (motor_controller.py:228-250). -/
def Motor.turn_left (speed : Option Int) (r : Option String) (t : ℚ)
    (m : Motor) : Bool × Motor :=
  directionalMove "TURN_LEFT" "ACTION:TURN_LEFT" MotorDirection.turn_left speed r t m

/-- `MotorController.turn_right` (motor_controller.py:252-274). -/
def Motor.turn_right (speed : Option Int) (r : Option String) (t : ℚ)
    (m : Motor) : Bool × Motor :=
  directionalMove "TURN_RIGHT" "ACTION:TURN_RIGHT" MotorDirection.turn_right speed r t m

/-- `MotorController.set_speed` (motor_controller.py:291-304): clamps to
`[0, max_speed]`, writes `SET_SPEED:<clamped>`, records the clamped value on
acknowledgement. -/
def Motor.set_speed (v : Int) (r : Option String) (m : Motor) : Bool × Motor :=
  let clamped := max 0 (min v m.max_speed)
  let m1 := sendCommand m ("SET_SPEED:" ++ toString clamped)
  if ackOk r "ACTION:SPEED_SET" then
    (true, { m1 with motor_state := { m1.motor_state with speed := clamped } })
  else
    (false, m1)

/-- The effective-speed rule as the specification claim words it: the
explicit argument if present and nonzero, else the current recorded speed if
nonzero, else the configured base speed.  Stated independently of the source
transcription `effectiveSpeed` so the two can be compared. -/
def effectiveSpeedSpec (speed : Option Int) (cur base : Int) : Int :=
  match speed with
  | some v => if v ≠ 0 then v else (if cur ≠ 0 then cur else base)
  | none => if cur ≠ 0 then cur else base

/-- `SafetyStatus` dataclass from `safety_monitor.py` (alerts are a Python
list, appended in arrival order and deduplicated by membership checks). -/
structure SafetyStatus where
  level : SafetyLevel
  active_alerts : List SafetyAlert
  last_sensor_reading : ℚ
  emergency_stops_count : Nat
  is_monitoring_active : Bool
deriving DecidableEq

/-- The safety thresholds read from the config in `SafetyMonitor.__init__`
(defaults: `min_distance_obstacles = 15.0`, `emergency_stop_distance = 10.0`). -/
structure SafetyConfig where
  min_obstacle_distance : ℚ
  emergency_stop_distance : ℚ
deriving DecidableEq

/-- The integrated system as wired by `HardwareIntegrationManager`: one
`SafetyMonitor` (its config and `safety_status`) holding a reference to one
`MotorController`.  The sensor manager is modelled as an oracle: each
operation that reads it takes the reading (`Option ℚ`, `none` = no reading)
as an argument.  `time.time()` values are likewise passed in as arguments. -/
structure System where
  cfg : SafetyConfig
  safety : SafetyStatus
  motor : Motor
deriving DecidableEq

/-- `SafetyMonitor.trigger_emergency_stop` (safety_monitor.py:258-292):
appends the alert if absent, sets level to EMERGENCY, bumps the counter, and
synchronously calls the motor's `emergency_stop` (the motor reference is
always set in the integrated system).  LED patterns and callbacks have no
effect on the modelled state. -/
def trigger_emergency_stop (a : SafetyAlert) (r : Option String) (t : ℚ)
    (s : System) : Bool × System :=
  let alerts :=
    if a ∈ s.safety.active_alerts then s.safety.active_alerts
    else s.safety.active_alerts ++ [a]
  let st := { s.safety with active_alerts := alerts, level := SafetyLevel.emergency, emergency_stops_count := s.safety.emergency_stops_count + 1 }
  (true, { s with safety := st, motor := (Motor.emergency_stop r t s.motor).2 })

/-- `SafetyMonitor.manual_emergency_stop` (safety_monitor.py:294-296). -/
def manual_emergency_stop (r : Option String) (t : ℚ) (s : System) : Bool × System :=
  trigger_emergency_stop SafetyAlert.manual_emergency r t s

/-- `SafetyMonitor._handle_emergency_obstacle` (safety_monitor.py:196-206):
does nothing when `OBSTACLE_TOO_CLOSE` is already active. -/
def handle_emergency_obstacle (r : Option String) (t : ℚ) (s : System) : System :=
  if SafetyAlert.obstacle_too_close ∈ s.safety.active_alerts then s
  else (trigger_emergency_stop SafetyAlert.obstacle_too_close r t s).2

/-- `SafetyMonitor._handle_warning_obstacle` (safety_monitor.py:208-221):
raises the level to WARNING only from SAFE. -/
def handle_warning_obstacle (s : System) : System :=
  if s.safety.level = SafetyLevel.safe then
    { s with safety := { s.safety with level := SafetyLevel.warning } }
  else s

/-- `SafetyMonitor._clear_obstacle_alerts` (safety_monitor.py:223-230):
removes `OBSTACLE_TOO_CLOSE` from the alerts (first occurrence, guarded by
membership in the source — `List.erase` matches both), and resets the level
to SAFE when it is WARNING or DANGER (not EMERGENCY). -/
def clear_obstacle_alerts (s : System) : System :=
  let st1 := { s.safety with active_alerts := s.safety.active_alerts.erase SafetyAlert.obstacle_too_close }
  let st2 :=
    if st1.level = SafetyLevel.warning ∨ st1.level = SafetyLevel.danger then
      { st1 with level := SafetyLevel.safe }
    else st1
  { s with safety := st2 }

/-- `SafetyMonitor._handle_sensor_failure` (safety_monitor.py:232-242): when
`SENSOR_FAILURE` is not yet active, appends it, sets the level to DANGER, and
latches the motor via its `emergency_stop` if not already latched. -/
def handle_sensor_failure (r : Option String) (t : ℚ) (s : System) : System :=
  if SafetyAlert.sensor_failure ∈ s.safety.active_alerts then s
  else
    let st := { s.safety with active_alerts := s.safety.active_alerts ++ [SafetyAlert.sensor_failure], level := SafetyLevel.danger }
    let m :=
      if s.motor.is_emergency_stopped then s.motor
      else (Motor.emergency_stop r t s.motor).2
    { s with safety := st, motor := m }

/-- `SafetyMonitor._check_sensors` (safety_monitor.py:167-194): reads the
distance once; on a reading, stamps `last_sensor_reading` with the current
time and dispatches on the thresholds; on `None`, handles sensor failure. -/
def check_sensors (d : Option ℚ) (r : Option String) (t : ℚ) (s : System) : System :=
  match d with
  | some dist =>
    let s1 := { s with safety := { s.safety with last_sensor_reading := t } }
    if dist ≤ s.cfg.emergency_stop_distance then handle_emergency_obstacle r t s1
    else if dist ≤ s.cfg.min_obstacle_distance then handle_warning_obstacle s1
    else clear_obstacle_alerts s1
  | none => handle_sensor_failure r t s

/-- `SafetyMonitor._check_communication` (safety_monitor.py:244-256): when
the last sensor reading is more than 2 seconds old and `COMMUNICATION_LOST`
is not yet active, appends it and sets the level to DANGER. -/
def check_communication (t : ℚ) (s : System) : System :=
  if t - s.safety.last_sensor_reading > 2 then
    if SafetyAlert.communication_lost ∈ s.safety.active_alerts then s
    else { s with safety := { s.safety with active_alerts := s.safety.active_alerts ++ [SafetyAlert.communication_lost], level := SafetyLevel.danger } }
  else s

/-- One tick of `SafetyMonitor._monitoring_loop` (safety_monitor.py:139-165):
`_check_sensors` followed by `_check_communication`, with the tick's distance
reading `d`, channel-response oracle `r` and wall-clock time `t`. -/
def monitorTick (d : Option ℚ) (r : Option String) (t : ℚ) (s : System) : System :=
  check_communication t (check_sensors d r t s)

/-- `SafetyMonitor.resume_after_emergency` (safety_monitor.py:298-327):
re-reads the distance; with no reading or a reading at most
`min_obstacle_distance` it returns `False` leaving every field untouched;
otherwise it clears the alerts, resets the level to SAFE, and clears the
motor latch via `resume_from_emergency`. -/
def resume_after_emergency (d : Option ℚ) (s : System) : Bool × System :=
  match d with
  | none => (false, s)
  | some dist =>
    if dist ≤ s.cfg.min_obstacle_distance then (false, s)
    else
      let st := { s.safety with active_alerts := [], level := SafetyLevel.safe }
      (true, { s with safety := st, motor := (Motor.resume_from_emergency s.motor).2 })

/-- The state right after `HardwareIntegrationManager.initialize` wires the
components, with the default config (`max_speed = 100`, `base_speed = 40`,
thresholds 15 / 10) and the fields as set in the two `__init__` methods. -/
def initSystem : System :=
  { cfg := { min_obstacle_distance := 15, emergency_stop_distance := 10 }
    safety := { level := SafetyLevel.safe, active_alerts := [], last_sensor_reading := 0, emergency_stops_count := 0, is_monitoring_active := true }
    motor := { motor_state := { direction := MotorDirection.stop, speed := 0, is_moving := false, last_command_time := 0 }, is_emergency_stopped := false, max_speed := 100, base_speed := 40, log := [] } }

/-- The operations the integrated system can perform, each with its oracle
inputs (distance reading, channel response, wall-clock time).  This is the
call graph of `HardwareIntegrationManager` and the monitoring loop: monitor
ticks, emergency triggers (obstacle / manual / system-error — generalized to
any alert), `resume_after_emergency`, the four directional moves (generalized
over the command strings), `stop`, and `set_speed`.  The motor's bare
`resume_from_emergency` is reachable only inside `resume_after_emergency` in
this wiring. -/
inductive Step : System → System → Prop
  | tick (d : Option ℚ) (r : Option String) (t : ℚ) (s : System) :
      Step s (monitorTick d r t s)
  | trigger (a : SafetyAlert) (r : Option String) (t : ℚ) (s : System) :
      Step s (trigger_emergency_stop a r t s).2
  | resume (d : Option ℚ) (s : System) :
      Step s (resume_after_emergency d s).2
  | move (cmd ack : String) (dir : MotorDirection) (sp : Option Int)
      (r : Option String) (t : ℚ) (s : System) :
      Step s { s with motor := (directionalMove cmd ack dir sp r t s.motor).2 }
  | mstop (r : Option String) (t : ℚ) (s : System) :
      Step s { s with motor := (Motor.stopCmd r t s.motor).2 }
  | sspeed (v : Int) (r : Option String) (s : System) :
      Step s { s with motor := (Motor.set_speed v r s.motor).2 }

/-- States reachable from the freshly initialized system. -/
def Reachable (s : System) : Prop :=
  Relation.ReflTransGen Step initSystem s

/-!
Interleaving model of `_send_command` (motor_controller.py:124-174) under
asyncio's cooperative scheduler, for the channel-sharing claim.  A call with
`expect_response=True` runs two atomic blocks: (1) from entry through
`serial_connection.write` / `flush` of the full command line — no `await`
occurs before or inside the write, so the line is written whole; (2) the
response-polling loop, which suspends on `await asyncio.sleep(0.001)`
(line 166), a point at which any other task may run.  `_send_command`
acquires no lock (`_connection_lock` is used only inside `initialize`) and
`_command_queue` is never read, so nothing prevents a second task from
running its own write block between another task's write and read. -/

/-- An atomic block of one `_send_command` call: the write of one full
command line, or the poll that completes the response read. -/
inductive ChanAction
  | write (cmd : String)
  | poll (cmd : String)
deriving DecidableEq

/-- A logical caller (Motor / LED / Sensor task) with its not-yet-executed
atomic blocks. -/
structure STask where
  pending : List ChanAction
deriving DecidableEq

/-- The shared channel system: the tasks and the device-observed write log
(one entry per written line, in write order). -/
structure ChanState where
  tasks : List STask
  log : List String
deriving DecidableEq

/-- The scheduler runs the next atomic block of task `i` (no-op on an absent
or finished task). -/
def runAction (c : ChanState) (i : Nat) : ChanState :=
  match c.tasks.get? i with
  | some t =>
    match t.pending with
    | ChanAction.write cmd :: rest =>
      { tasks := c.tasks.set i ⟨rest⟩, log := c.log ++ [cmd] }
    | ChanAction.poll _ :: rest =>
      { tasks := c.tasks.set i ⟨rest⟩, log := c.log }
    | [] => c
  | none => c

/-- Run a whole schedule (sequence of scheduler picks). -/
def runSched (c : ChanState) : List Nat → ChanState
  | [] => c
  | i :: rest => runSched (runAction c i) rest

/-- The two atomic blocks of `_send_command cmd, expect_response=True`. -/
def sendProg (cmd : String) : List ChanAction :=
  [ChanAction.write cmd, ChanAction.poll cmd]

/-- A task whose command is in flight: its line is written but its response
has not been read yet. -/
def inFlightTask (t : STask) : Bool :=
  match t.pending with
  | [ChanAction.poll _] => true
  | _ => false

/-- Number of commands currently in flight on the channel. -/
def inFlightCount (c : ChanState) : Nat :=
  (c.tasks.filter inFlightTask).length

/-- All callers have completed their `_send_command`. -/
def allDone (c : ChanState) : Bool :=
  c.tasks.all fun t => t.pending.isEmpty

/-- A motor caller's command line. -/
def motorCmd : String := "MOVE_FORWARD"

/-- An LED caller's command line (`LEDController` issues `LED_PATTERN:<n>`
through the same `_send_command`). -/
def ledCmd : String := "LED_PATTERN:3"

/-- A sensor caller's command line (`SensorManager` issues `READ_SENSORS`
through the same `_send_command`). -/
def sensorCmd : String := "READ_SENSORS"

/-- The command lines a caller has not yet written. -/
def pendingWrites (t : STask) : List String :=
  t.pending.filterMap fun a =>
    match a with
    | ChanAction.write c => some c
    | ChanAction.poll _ => none

/-- All command lines not yet written by any caller. -/
def outstanding (c : ChanState) : List String :=
  (c.tasks.map pendingWrites).join

/-- N concurrent callers of the shared channel (any mix of Motor, LED and
Sensor commands), each about to issue one command through `_send_command`. -/
def chanInitN (cmds : List String) : ChanState :=
  { tasks := cmds.map fun c => ⟨sendProg c⟩, log := [] }

/-- A motor whose emergency latch is set (otherwise as freshly initialized). -/
def latchedMotor : Motor :=
  { initSystem.motor with is_emergency_stopped := true }

/-!
## Lemmas about the motor state machine
-/

theorem sendCommand_latch (m : Motor) (c : String) :
    (sendCommand m c).is_emergency_stopped = m.is_emergency_stopped := rfl

theorem stopCmd_latch (r : Option String) (t : ℚ) (m : Motor) :
    ((Motor.stopCmd r t m).2).is_emergency_stopped = m.is_emergency_stopped := by
  unfold Motor.stopCmd
  cases h : ackOk r "ACTION:STOP" <;> simp [h, sendCommand]

theorem emergency_stop_latch (r : Option String) (t : ℚ) (m : Motor) :
    ((Motor.emergency_stop r t m).2).is_emergency_stopped = true := by
  unfold Motor.emergency_stop
  rw [stopCmd_latch]

theorem directionalMove_latched (cmd ack : String) (dir : MotorDirection)
    (sp : Option Int) (r : Option String) (t : ℚ) (m : Motor)
    (h : m.is_emergency_stopped = true) :
    directionalMove cmd ack dir sp r t m = (false, m) := by
  unfold directionalMove
  simp [h]

theorem directionalMove_latch (cmd ack : String) (dir : MotorDirection)
    (sp : Option Int) (r : Option String) (t : ℚ) (m : Motor) :
    ((directionalMove cmd ack dir sp r t m).2).is_emergency_stopped
      = m.is_emergency_stopped := by
  unfold directionalMove sendCommand
  cases h : m.is_emergency_stopped <;> simp [h] <;> split <;> split <;> simp [h]

theorem directionalMove_speed (cmd ack : String) (dir : MotorDirection)
    (sp : Option Int) (r : Option String) (t : ℚ) (m : Motor)
    (h : m.is_emergency_stopped = false) :
    ((directionalMove cmd ack dir sp r t m).2).motor_state.speed
      = effectiveSpeed sp m.motor_state.speed m.base_speed := by
  unfold directionalMove sendCommand
  simp only [h, Bool.false_eq_true, if_false]
  split <;> split
  all_goals first
    | rfl
    | (rename_i hne; rw [not_ne_iff] at hne; exact hne.symm)

theorem directionalMove_log_changed (cmd ack : String) (dir : MotorDirection)
    (sp : Option Int) (r : Option String) (t : ℚ) (m : Motor)
    (h : m.is_emergency_stopped = false)
    (h2 : effectiveSpeed sp m.motor_state.speed m.base_speed ≠ m.motor_state.speed) :
    ((directionalMove cmd ack dir sp r t m).2).log
      = m.log ++ ["SET_SPEED:" ++ toString (effectiveSpeed sp m.motor_state.speed m.base_speed), cmd] := by
  unfold directionalMove sendCommand
  simp only [h, Bool.false_eq_true, if_false]
  split <;> simp [h2]

theorem effectiveSpeed_eq_spec (sp : Option Int) (cur base : Int) :
    effectiveSpeed sp cur base = effectiveSpeedSpec sp cur base := by
  cases sp <;> simp [effectiveSpeed, pyOrOpt, pyOrInt, effectiveSpeedSpec, ite_not]

theorem effectiveSpeedSpec_zero (cur base : Int) (hb : base ≠ 0) :
    effectiveSpeedSpec (some 0) cur base ≠ 0 := by
  simp only [effectiveSpeedSpec, ne_eq, not_true_eq_false, if_false, ite_not]
  split
  · exact hb
  · assumption

theorem set_speed_log (v : Int) (r : Option String) (m : Motor) :
    ((Motor.set_speed v r m).2).log
      = m.log ++ ["SET_SPEED:" ++ toString (max 0 (min v m.max_speed))] := by
  unfold Motor.set_speed sendCommand
  split <;> rfl

/-!
## Claim theorems about the motor state machine
-/

/-- C2: while the `_is_emergency_stopped` latch is true, each of the four
directional move operations returns `False` and leaves the motor completely
unchanged — in particular nothing is written to the serial channel (the
write log, hence the channel call count, is unchanged) and `motor_state` is
unchanged. -/
theorem moves_rejected_when_latched (sp : Option Int) (r : Option String)
    (t : ℚ) (m : Motor) (h : m.is_emergency_stopped = true) :
    Motor.move_forward sp r t m = (false, m)
      ∧ Motor.move_backward sp r t m = (false, m)
      ∧ Motor.turn_left sp r t m = (false, m)
      ∧ Motor.turn_right sp r t m = (false, m) :=
  ⟨directionalMove_latched _ _ _ _ _ _ _ h, directionalMove_latched _ _ _ _ _ _ _ h,
   directionalMove_latched _ _ _ _ _ _ _ h, directionalMove_latched _ _ _ _ _ _ _ h⟩

theorem moves_rejected_when_latched_witness :
    latchedMotor.is_emergency_stopped = true
      ∧ (Motor.move_forward (some 40) none 0 latchedMotor = (false, latchedMotor)
        ∧ Motor.move_backward (some 40) none 0 latchedMotor = (false, latchedMotor)
        ∧ Motor.turn_left (some 40) none 0 latchedMotor = (false, latchedMotor)
        ∧ Motor.turn_right (some 40) none 0 latchedMotor = (false, latchedMotor)) :=
  ⟨rfl, moves_rejected_when_latched (some 40) none 0 latchedMotor rfl⟩

/-- C7: `emergency_stop` sets the `_is_emergency_stopped` latch in local
state before any channel I/O — the subsequent `STOP` command is issued on a
state whose latch is already true (second conjunct) — and the latch is true
when the call returns for every possible channel outcome `r` (acknowledged,
garbled, or `none` for a timeout/error). -/
theorem emergency_stop_latches_unconditionally (r : Option String) (t : ℚ) (m : Motor) :
    ((Motor.emergency_stop r t m).2).is_emergency_stopped = true
      ∧ Motor.emergency_stop r t m
          = Motor.stopCmd r t { m with is_emergency_stopped := true } :=
  ⟨emergency_stop_latch r t m, rfl⟩

/-- C9: the commanded speed of a directional move is
`speed or motor_state.speed or base_speed` under Python truthiness (`None`
and `0` both fall through), with no clamping on this path: after any
non-latched move the recorded speed equals the claim's formula
(`effectiveSpeedSpec`); an explicit request of `0` never yields commanded
speed `0` (the configured `base_speed`, default 40, is nonzero); a nonzero
request above `max_speed` is recorded and sent on the wire unclamped; only
`set_speed` clamps, and its clamped value lies in `[0, max_speed]`. -/
theorem move_speed_resolution (sp : Option Int) (v : Int) (r : Option String)
    (t : ℚ) (m : Motor) (hl : m.is_emergency_stopped = false)
    (hb : m.base_speed ≠ 0) (hm : 0 ≤ m.max_speed) :
    (((Motor.move_forward sp r t m).2).motor_state.speed
        = effectiveSpeedSpec sp m.motor_state.speed m.base_speed
      ∧ ((Motor.move_backward sp r t m).2).motor_state.speed
        = effectiveSpeedSpec sp m.motor_state.speed m.base_speed
      ∧ ((Motor.turn_left sp r t m).2).motor_state.speed
        = effectiveSpeedSpec sp m.motor_state.speed m.base_speed
      ∧ ((Motor.turn_right sp r t m).2).motor_state.speed
        = effectiveSpeedSpec sp m.motor_state.speed m.base_speed)
    ∧ effectiveSpeedSpec (some 0) m.motor_state.speed m.base_speed ≠ 0
    ∧ (v ≠ 0 → ((Motor.move_forward (some v) r t m).2).motor_state.speed = v)
    ∧ (v ≠ 0 → v ≠ m.motor_state.speed →
        ((Motor.move_forward (some v) r t m).2).log
          = m.log ++ ["SET_SPEED:" ++ toString v, "MOVE_FORWARD"])
    ∧ ((Motor.set_speed v r m).2).log
        = m.log ++ ["SET_SPEED:" ++ toString (max 0 (min v m.max_speed))]
    ∧ 0 ≤ max 0 (min v m.max_speed) ∧ max 0 (min v m.max_speed) ≤ m.max_speed := by
  have hfwd : ∀ sp' : Option Int, ((Motor.move_forward sp' r t m).2).motor_state.speed
      = effectiveSpeedSpec sp' m.motor_state.speed m.base_speed := fun sp' => by
    rw [Motor.move_forward, directionalMove_speed _ _ _ _ _ _ _ hl, effectiveSpeed_eq_spec]
  refine ⟨⟨hfwd sp, ?_, ?_, ?_⟩, effectiveSpeedSpec_zero _ _ hb, ?_, ?_, set_speed_log v r m, le_max_left _ _, max_le hm (min_le_right _ _)⟩
  · rw [Motor.move_backward, directionalMove_speed _ _ _ _ _ _ _ hl, effectiveSpeed_eq_spec]
  · rw [Motor.turn_left, directionalMove_speed _ _ _ _ _ _ _ hl, effectiveSpeed_eq_spec]
  · rw [Motor.turn_right, directionalMove_speed _ _ _ _ _ _ _ hl, effectiveSpeed_eq_spec]
  · intro hv
    rw [hfwd (some v)]
    simp [effectiveSpeedSpec, hv]
  · intro hv hne
    rw [Motor.move_forward, directionalMove_log_changed _ _ _ _ _ _ _ hl]
    · rw [effectiveSpeed_eq_spec]
      simp [effectiveSpeedSpec, hv]
    · rw [effectiveSpeed_eq_spec]
      simpa [effectiveSpeedSpec, hv] using hne

theorem move_speed_resolution_witness :
    initSystem.motor.is_emergency_stopped = false
      ∧ initSystem.motor.base_speed ≠ 0
      ∧ 0 ≤ initSystem.motor.max_speed
      ∧ (((Motor.move_forward (some 250) none 0 initSystem.motor).2).motor_state.speed
            = effectiveSpeedSpec (some 250) initSystem.motor.motor_state.speed initSystem.motor.base_speed
          ∧ ((Motor.move_backward (some 250) none 0 initSystem.motor).2).motor_state.speed
            = effectiveSpeedSpec (some 250) initSystem.motor.motor_state.speed initSystem.motor.base_speed
          ∧ ((Motor.turn_left (some 250) none 0 initSystem.motor).2).motor_state.speed
            = effectiveSpeedSpec (some 250) initSystem.motor.motor_state.speed initSystem.motor.base_speed
          ∧ ((Motor.turn_right (some 250) none 0 initSystem.motor).2).motor_state.speed
            = effectiveSpeedSpec (some 250) initSystem.motor.motor_state.speed initSystem.motor.base_speed)
        ∧ effectiveSpeedSpec (some 0) initSystem.motor.motor_state.speed initSystem.motor.base_speed ≠ 0
        ∧ ((250 : Int) ≠ 0 → ((Motor.move_forward (some 250) none 0 initSystem.motor).2).motor_state.speed = 250)
        ∧ ((250 : Int) ≠ 0 → (250 : Int) ≠ initSystem.motor.motor_state.speed →
            ((Motor.move_forward (some 250) none 0 initSystem.motor).2).log
              = initSystem.motor.log ++ ["SET_SPEED:" ++ toString (250 : Int), "MOVE_FORWARD"])
        ∧ ((Motor.set_speed 250 none initSystem.motor).2).log
            = initSystem.motor.log ++ ["SET_SPEED:" ++ toString (max 0 (min 250 initSystem.motor.max_speed))]
        ∧ (0 : Int) ≤ max 0 (min 250 initSystem.motor.max_speed)
        ∧ max 0 (min 250 initSystem.motor.max_speed) ≤ initSystem.motor.max_speed :=
  ⟨rfl, by decide, by decide,
   move_speed_resolution (some 250) 250 none 0 initSystem.motor rfl (by decide) (by decide)⟩

/-!
## Lemmas about the safety monitor
-/

theorem trigger_level (a : SafetyAlert) (r : Option String) (t : ℚ) (s : System) :
    ((trigger_emergency_stop a r t s).2).safety.level = SafetyLevel.emergency := rfl

theorem trigger_latch (a : SafetyAlert) (r : Option String) (t : ℚ) (s : System) :
    ((trigger_emergency_stop a r t s).2).motor.is_emergency_stopped = true :=
  emergency_stop_latch r t s.motor

theorem trigger_last (a : SafetyAlert) (r : Option String) (t : ℚ) (s : System) :
    ((trigger_emergency_stop a r t s).2).safety.last_sensor_reading
      = s.safety.last_sensor_reading := rfl

theorem trigger_mem_self (a : SafetyAlert) (r : Option String) (t : ℚ) (s : System) :
    a ∈ ((trigger_emergency_stop a r t s).2).safety.active_alerts := by
  unfold trigger_emergency_stop
  dsimp only
  split
  · assumption
  · simp

theorem handle_emergency_cases (r : Option String) (t : ℚ) (s : System) :
    handle_emergency_obstacle r t s = s
      ∨ handle_emergency_obstacle r t s
          = (trigger_emergency_stop SafetyAlert.obstacle_too_close r t s).2 := by
  unfold handle_emergency_obstacle
  split
  · exact Or.inl rfl
  · exact Or.inr rfl

theorem handle_emergency_level (r : Option String) (t : ℚ) (s : System)
    (h : s.safety.level = SafetyLevel.emergency) :
    (handle_emergency_obstacle r t s).safety.level = SafetyLevel.emergency := by
  rcases handle_emergency_cases r t s with he | he <;> rw [he]
  · exact h
  · rfl

theorem handle_emergency_last (r : Option String) (t : ℚ) (s : System) :
    (handle_emergency_obstacle r t s).safety.last_sensor_reading
      = s.safety.last_sensor_reading := by
  rcases handle_emergency_cases r t s with he | he <;> rw [he]
  rfl

theorem handle_warning_last (s : System) :
    (handle_warning_obstacle s).safety.last_sensor_reading
      = s.safety.last_sensor_reading := by
  unfold handle_warning_obstacle
  split <;> rfl

theorem clear_last (s : System) :
    (clear_obstacle_alerts s).safety.last_sensor_reading
      = s.safety.last_sensor_reading := by
  unfold clear_obstacle_alerts
  dsimp only
  split <;> rfl

theorem check_sensors_last_some (d : ℚ) (r : Option String) (t : ℚ) (s : System) :
    (check_sensors (some d) r t s).safety.last_sensor_reading = t := by
  unfold check_sensors
  dsimp only
  split
  · rw [handle_emergency_last]
  · split
    · rw [handle_warning_last]
    · rw [clear_last]

theorem check_comm_fresh (t : ℚ) (s : System)
    (h : s.safety.last_sensor_reading = t) : check_communication t s = s := by
  unfold check_communication
  rw [h, sub_self, if_neg (by norm_num)]

/-- With a reading present, the tick stamps `last_sensor_reading := t`, so
the staleness check `t - t > 2` can never fire in the same tick. -/
theorem tick_some (d : ℚ) (r : Option String) (t : ℚ) (s : System) :
    monitorTick (some d) r t s = check_sensors (some d) r t s := by
  unfold monitorTick
  exact check_comm_fresh t _ (check_sensors_last_some d r t s)

theorem check_sensors_emergency_branch (d : ℚ) (r : Option String) (t : ℚ) (s : System)
    (h : d ≤ s.cfg.emergency_stop_distance) :
    check_sensors (some d) r t s
      = handle_emergency_obstacle r t { s with safety := { s.safety with last_sensor_reading := t } } := by
  unfold check_sensors
  dsimp only
  rw [if_pos h]

theorem check_sensors_warning_branch (d : ℚ) (r : Option String) (t : ℚ) (s : System)
    (h1 : ¬ d ≤ s.cfg.emergency_stop_distance) (h2 : d ≤ s.cfg.min_obstacle_distance) :
    check_sensors (some d) r t s
      = handle_warning_obstacle { s with safety := { s.safety with last_sensor_reading := t } } := by
  unfold check_sensors
  dsimp only
  rw [if_neg h1, if_pos h2]

theorem check_sensors_clear_branch (d : ℚ) (r : Option String) (t : ℚ) (s : System)
    (h1 : ¬ d ≤ s.cfg.emergency_stop_distance) (h2 : ¬ d ≤ s.cfg.min_obstacle_distance) :
    check_sensors (some d) r t s
      = clear_obstacle_alerts { s with safety := { s.safety with last_sensor_reading := t } } := by
  unfold check_sensors
  dsimp only
  rw [if_neg h1, if_neg h2]

theorem check_comm_level_cases (t : ℚ) (s : System) :
    (check_communication t s).safety.level = s.safety.level
      ∨ (check_communication t s).safety.level = SafetyLevel.danger := by
  unfold check_communication
  split
  · split
    · exact Or.inl rfl
    · exact Or.inr rfl
  · exact Or.inl rfl

theorem check_comm_motor (t : ℚ) (s : System) :
    (check_communication t s).motor = s.motor := by
  unfold check_communication
  split
  · split <;> rfl
  · rfl

theorem check_comm_alerts_mono (t : ℚ) (s : System) (b : SafetyAlert)
    (h : b ∈ s.safety.active_alerts) :
    b ∈ (check_communication t s).safety.active_alerts := by
  unfold check_communication
  split
  · split
    · exact h
    · exact List.mem_append_left _ h
  · exact h

theorem handle_sensor_failure_new (r : Option String) (t : ℚ) (s : System)
    (h : SafetyAlert.sensor_failure ∉ s.safety.active_alerts) :
    SafetyAlert.sensor_failure ∈ (handle_sensor_failure r t s).safety.active_alerts
      ∧ (handle_sensor_failure r t s).safety.level = SafetyLevel.danger
      ∧ (handle_sensor_failure r t s).motor.is_emergency_stopped = true
      ∧ (handle_sensor_failure r t s).safety.last_sensor_reading
          = s.safety.last_sensor_reading := by
  unfold handle_sensor_failure
  rw [if_neg h]
  dsimp only
  refine ⟨by simp, rfl, ?_, rfl⟩
  split
  · assumption
  · exact emergency_stop_latch r t s.motor

/-!
## The Emergency-implies-latched invariant (claim C1)
-/

/-- The invariant of claim C1: an Emergency safety level implies the motor's
emergency latch. -/
def EmergencyLatched (s : System) : Prop :=
  s.safety.level = SafetyLevel.emergency → s.motor.is_emergency_stopped = true

theorem EL_trigger (a : SafetyAlert) (r : Option String) (t : ℚ) (s : System) :
    EmergencyLatched (trigger_emergency_stop a r t s).2 :=
  fun _ => trigger_latch a r t s

theorem EL_handle_emergency (r : Option String) (t : ℚ) (s : System)
    (h : EmergencyLatched s) : EmergencyLatched (handle_emergency_obstacle r t s) := by
  rcases handle_emergency_cases r t s with he | he <;> rw [he]
  · exact h
  · exact EL_trigger _ _ _ _

theorem EL_handle_warning (s : System) (h : EmergencyLatched s) :
    EmergencyLatched (handle_warning_obstacle s) := by
  unfold handle_warning_obstacle
  split
  · intro hl
    exact absurd hl (by simp)
  · exact h

theorem EL_clear (s : System) (h : EmergencyLatched s) :
    EmergencyLatched (clear_obstacle_alerts s) := by
  unfold clear_obstacle_alerts
  dsimp only
  split
  · intro hl
    exact absurd hl (by simp)
  · exact h

theorem EL_sensor_failure (r : Option String) (t : ℚ) (s : System)
    (h : EmergencyLatched s) : EmergencyLatched (handle_sensor_failure r t s) := by
  unfold handle_sensor_failure
  split
  · exact h
  · intro hl
    exact absurd hl (by simp)

theorem EL_comm (t : ℚ) (s : System) (h : EmergencyLatched s) :
    EmergencyLatched (check_communication t s) := by
  unfold check_communication
  split
  · split
    · exact h
    · intro hl
      exact absurd hl (by simp)
  · exact h

theorem EL_check_sensors (d : Option ℚ) (r : Option String) (t : ℚ) (s : System)
    (h : EmergencyLatched s) : EmergencyLatched (check_sensors d r t s) := by
  cases d with
  | none => exact EL_sensor_failure r t s h
  | some dist =>
    unfold check_sensors
    dsimp only
    split
    · exact EL_handle_emergency r t _ h
    · split
      · exact EL_handle_warning _ h
      · exact EL_clear _ h

theorem EL_tick (d : Option ℚ) (r : Option String) (t : ℚ) (s : System)
    (h : EmergencyLatched s) : EmergencyLatched (monitorTick d r t s) :=
  EL_comm t _ (EL_check_sensors d r t s h)

theorem EL_resume (d : Option ℚ) (s : System) (h : EmergencyLatched s) :
    EmergencyLatched (resume_after_emergency d s).2 := by
  unfold resume_after_emergency
  cases d with
  | none => exact h
  | some dist =>
    dsimp only
    split
    · exact h
    · intro hl
      exact absurd hl (by simp)

theorem step_preserves_EL {s s' : System} (hs : Step s s') (h : EmergencyLatched s) :
    EmergencyLatched s' := by
  cases hs with
  | tick d r t s => exact EL_tick d r t s h
  | trigger a r t s => exact EL_trigger a r t s
  | resume d s => exact EL_resume d s h
  | move cmd ack dir sp r t s =>
    intro hl
    show ((directionalMove cmd ack dir sp r t s.motor).2).is_emergency_stopped = true
    rw [directionalMove_latch]
    exact h hl
  | mstop r t s =>
    intro hl
    show ((Motor.stopCmd r t s.motor).2).is_emergency_stopped = true
    rw [stopCmd_latch]
    exact h hl
  | sspeed v r s =>
    intro hl
    show ((Motor.set_speed v r s.motor).2).is_emergency_stopped = true
    unfold Motor.set_speed sendCommand
    split <;> exact h hl

/-- C1: in every reachable state of the integrated system, an observed
`SafetyStatus.level == Emergency` implies the motor's `emergency_stopped`
latch.  The trigger path (`trigger_emergency_stop`) is the only transition
that sets the level to Emergency, and it latches the motor synchronously (no
suspension intervenes), so the implication holds at every observable point. -/
theorem emergency_level_implies_motor_latched (s : System) (hr : Reachable s)
    (he : s.safety.level = SafetyLevel.emergency) :
    s.motor.is_emergency_stopped = true := by
  have hEL : EmergencyLatched s := by
    clear he
    induction hr with
    | refl =>
      intro h0
      exact absurd h0 (by simp [initSystem])
    | tail _ hstep ih => exact step_preserves_EL hstep ih
  exact hEL he

theorem emergency_level_implies_motor_latched_witness :
    Reachable (manual_emergency_stop none 0 initSystem).2
      ∧ ((manual_emergency_stop none 0 initSystem).2).safety.level = SafetyLevel.emergency
      ∧ ((manual_emergency_stop none 0 initSystem).2).motor.is_emergency_stopped = true :=
  ⟨Relation.ReflTransGen.single (Step.trigger SafetyAlert.manual_emergency none 0 initSystem),
   rfl,
   emergency_level_implies_motor_latched _
     (Relation.ReflTransGen.single (Step.trigger SafetyAlert.manual_emergency none 0 initSystem))
     rfl⟩

/-- C6: `resume_after_emergency` called while the hazard source reads a
distance at most `emergency_stop_distance` (which is at most
`min_obstacle_distance`, defaults 10 ≤ 15) — or returns no reading at all —
returns `False` and leaves the whole system state literally unchanged: the
level (in particular Emergency), the active alerts, and the motor latch are
all untouched. -/
theorem resume_refused_when_unsafe (d : Option ℚ) (s : System)
    (hd : d = none ∨ ∃ x, d = some x ∧ x ≤ s.cfg.emergency_stop_distance)
    (hc : s.cfg.emergency_stop_distance ≤ s.cfg.min_obstacle_distance) :
    resume_after_emergency d s = (false, s) := by
  rcases hd with rfl | ⟨x, rfl, hx⟩
  · rfl
  · unfold resume_after_emergency
    dsimp only
    rw [if_pos (hx.trans hc)]

theorem resume_refused_when_unsafe_witness :
    ((5 : ℚ) ≤ ((manual_emergency_stop none 0 initSystem).2).cfg.emergency_stop_distance)
      ∧ (((manual_emergency_stop none 0 initSystem).2).cfg.emergency_stop_distance
          ≤ ((manual_emergency_stop none 0 initSystem).2).cfg.min_obstacle_distance)
      ∧ ((manual_emergency_stop none 0 initSystem).2).safety.level = SafetyLevel.emergency
      ∧ resume_after_emergency (some 5) (manual_emergency_stop none 0 initSystem).2
          = (false, (manual_emergency_stop none 0 initSystem).2) :=
  ⟨by decide, by decide, rfl,
   resume_refused_when_unsafe (some 5) (manual_emergency_stop none 0 initSystem).2
     (Or.inr ⟨5, rfl, by decide⟩) (by decide)⟩

/-- C10: a monitoring tick whose distance source returns no reading, while
`SENSOR_FAILURE` is not yet active, adds `SENSOR_FAILURE` to the active
alerts, sets the level to Danger (not Emergency), and leaves the motor
latched (`_handle_sensor_failure` calls the motor's `emergency_stop` when it
is not already latched) — so the motor latch can be true while the safety
level is Danger. -/
theorem sensor_failure_danger_latches (r : Option String) (t : ℚ) (s : System)
    (h : SafetyAlert.sensor_failure ∉ s.safety.active_alerts) :
    SafetyAlert.sensor_failure ∈ (monitorTick none r t s).safety.active_alerts
      ∧ (monitorTick none r t s).safety.level = SafetyLevel.danger
      ∧ (monitorTick none r t s).motor.is_emergency_stopped = true := by
  obtain ⟨hmem, hlev, hlatch, _⟩ := handle_sensor_failure_new r t s h
  have hsens : check_sensors none r t s = handle_sensor_failure r t s := rfl
  unfold monitorTick
  rw [hsens]
  refine ⟨check_comm_alerts_mono t _ _ hmem, ?_, ?_⟩
  · rcases check_comm_level_cases t (handle_sensor_failure r t s) with h2 | h2 <;>
      rw [h2]
    exact hlev
  · rw [check_comm_motor]
    exact hlatch

theorem sensor_failure_danger_latches_witness :
    SafetyAlert.sensor_failure ∉ initSystem.safety.active_alerts
      ∧ (SafetyAlert.sensor_failure ∈ (monitorTick none none 0 initSystem).safety.active_alerts
        ∧ (monitorTick none none 0 initSystem).safety.level = SafetyLevel.danger
        ∧ (monitorTick none none 0 initSystem).motor.is_emergency_stopped = true) :=
  ⟨by decide, sensor_failure_danger_latches none 0 initSystem (by decide)⟩

theorem handle_warning_not_safe (s : System) (h : s.safety.level ≠ SafetyLevel.safe) :
    handle_warning_obstacle s = s := by
  unfold handle_warning_obstacle
  rw [if_neg h]

theorem clear_level_not_wd (s : System)
    (h1 : s.safety.level ≠ SafetyLevel.warning) (h2 : s.safety.level ≠ SafetyLevel.danger) :
    (clear_obstacle_alerts s).safety.level = s.safety.level := by
  unfold clear_obstacle_alerts
  dsimp only
  rw [if_neg (not_or.mpr ⟨h1, h2⟩)]

/-- C3 (amended): a tick whose reading is at most `emergency_stop_distance`
escalates — adds `OBSTACLE_TOO_CLOSE`, sets Emergency, latches the motor
synchronously within the tick — provided the alert is not already active at
tick start (`_handle_emergency_obstacle` is a no-op when it is). -/
theorem tick_close_obstacle_triggers (d : ℚ) (r : Option String) (t : ℚ) (s : System)
    (hd : d ≤ s.cfg.emergency_stop_distance)
    (ha : SafetyAlert.obstacle_too_close ∉ s.safety.active_alerts) :
    SafetyAlert.obstacle_too_close ∈ (monitorTick (some d) r t s).safety.active_alerts
      ∧ (monitorTick (some d) r t s).safety.level = SafetyLevel.emergency
      ∧ (monitorTick (some d) r t s).motor.is_emergency_stopped = true := by
  rw [tick_some, check_sensors_emergency_branch d r t s hd]
  unfold handle_emergency_obstacle
  dsimp only
  rw [if_neg ha]
  exact ⟨trigger_mem_self _ _ _ _, trigger_level _ _ _ _, trigger_latch _ _ _ _⟩

theorem tick_close_obstacle_triggers_witness :
    ((5 : ℚ) ≤ initSystem.cfg.emergency_stop_distance)
      ∧ SafetyAlert.obstacle_too_close ∉ initSystem.safety.active_alerts
      ∧ (SafetyAlert.obstacle_too_close ∈ (monitorTick (some 5) none 0 initSystem).safety.active_alerts
        ∧ (monitorTick (some 5) none 0 initSystem).safety.level = SafetyLevel.emergency
        ∧ (monitorTick (some 5) none 0 initSystem).motor.is_emergency_stopped = true) :=
  ⟨by decide, by decide, tick_close_obstacle_triggers 5 none 0 initSystem (by decide) (by decide)⟩

/-- C3 (counterexample to the unconditional claim): run three ticks from the
initial state — a close reading (5), then a failed reading (`None`), then a
close reading (5) again.  The middle tick records `SENSOR_FAILURE` and
overwrites the level down to Danger; the third tick finds
`OBSTACLE_TOO_CLOSE` already active, so its handler does nothing and the
tick ends with level Danger, not Emergency, despite the reading being at
most `emergency_stop_distance`. -/
theorem tick_close_obstacle_counterexample :
    (monitorTick (some 5) none 0
        (monitorTick none none 0
          (monitorTick (some 5) none 0 initSystem))).safety.level
      = SafetyLevel.danger := by
  have h1 : monitorTick (some 5) none 0 initSystem
      = { cfg := { min_obstacle_distance := 15, emergency_stop_distance := 10 },
          safety := { level := SafetyLevel.emergency, active_alerts := [SafetyAlert.obstacle_too_close], last_sensor_reading := 0, emergency_stops_count := 1, is_monitoring_active := true },
          motor := { motor_state := { direction := MotorDirection.stop, speed := 0, is_moving := false, last_command_time := 0 }, is_emergency_stopped := true, max_speed := 100, base_speed := 40, log := ["STOP"] } } := by
    rw [tick_some]
    decide
  have h2 : monitorTick none none 0
      { cfg := { min_obstacle_distance := 15, emergency_stop_distance := 10 },
        safety := { level := SafetyLevel.emergency, active_alerts := [SafetyAlert.obstacle_too_close], last_sensor_reading := 0, emergency_stops_count := 1, is_monitoring_active := true },
        motor := { motor_state := { direction := MotorDirection.stop, speed := 0, is_moving := false, last_command_time := 0 }, is_emergency_stopped := true, max_speed := 100, base_speed := 40, log := ["STOP"] } }
      = { cfg := { min_obstacle_distance := 15, emergency_stop_distance := 10 },
          safety := { level := SafetyLevel.danger, active_alerts := [SafetyAlert.obstacle_too_close, SafetyAlert.sensor_failure], last_sensor_reading := 0, emergency_stops_count := 1, is_monitoring_active := true },
          motor := { motor_state := { direction := MotorDirection.stop, speed := 0, is_moving := false, last_command_time := 0 }, is_emergency_stopped := true, max_speed := 100, base_speed := 40, log := ["STOP"] } } := by
    unfold monitorTick
    rw [show check_sensors none none 0
        { cfg := { min_obstacle_distance := 15, emergency_stop_distance := 10 },
          safety := { level := SafetyLevel.emergency, active_alerts := [SafetyAlert.obstacle_too_close], last_sensor_reading := 0, emergency_stops_count := 1, is_monitoring_active := true },
          motor := { motor_state := { direction := MotorDirection.stop, speed := 0, is_moving := false, last_command_time := 0 }, is_emergency_stopped := true, max_speed := 100, base_speed := 40, log := ["STOP"] } }
        = { cfg := { min_obstacle_distance := 15, emergency_stop_distance := 10 },
            safety := { level := SafetyLevel.danger, active_alerts := [SafetyAlert.obstacle_too_close, SafetyAlert.sensor_failure], last_sensor_reading := 0, emergency_stops_count := 1, is_monitoring_active := true },
            motor := { motor_state := { direction := MotorDirection.stop, speed := 0, is_moving := false, last_command_time := 0 }, is_emergency_stopped := true, max_speed := 100, base_speed := 40, log := ["STOP"] } }
      from by decide]
    exact check_comm_fresh 0 _ (by decide)
  have h3 : monitorTick (some 5) none 0
      { cfg := { min_obstacle_distance := 15, emergency_stop_distance := 10 },
        safety := { level := SafetyLevel.danger, active_alerts := [SafetyAlert.obstacle_too_close, SafetyAlert.sensor_failure], last_sensor_reading := 0, emergency_stops_count := 1, is_monitoring_active := true },
        motor := { motor_state := { direction := MotorDirection.stop, speed := 0, is_moving := false, last_command_time := 0 }, is_emergency_stopped := true, max_speed := 100, base_speed := 40, log := ["STOP"] } }
      = { cfg := { min_obstacle_distance := 15, emergency_stop_distance := 10 },
          safety := { level := SafetyLevel.danger, active_alerts := [SafetyAlert.obstacle_too_close, SafetyAlert.sensor_failure], last_sensor_reading := 0, emergency_stops_count := 1, is_monitoring_active := true },
          motor := { motor_state := { direction := MotorDirection.stop, speed := 0, is_moving := false, last_command_time := 0 }, is_emergency_stopped := true, max_speed := 100, base_speed := 40, log := ["STOP"] } } := by
    rw [tick_some]
    decide
  rw [h1, h2, h3]

theorem check_sensors_level_from_emergency (d : Option ℚ) (r : Option String)
    (t : ℚ) (s : System) (h : s.safety.level = SafetyLevel.emergency) :
    (check_sensors d r t s).safety.level = SafetyLevel.emergency
      ∨ (check_sensors d r t s).safety.level = SafetyLevel.danger := by
  cases d with
  | none =>
    have hs : check_sensors none r t s = handle_sensor_failure r t s := rfl
    rw [hs]
    unfold handle_sensor_failure
    split
    · exact Or.inl h
    · exact Or.inr rfl
  | some dist =>
    unfold check_sensors
    dsimp only
    split
    · exact Or.inl (handle_emergency_level r t _ h)
    · split
      · left
        rw [handle_warning_not_safe _ (by intro hh; exact absurd (h.symm.trans hh) (by simp))]
        exact h
      · left
        rw [clear_level_not_wd _ (by intro hh; exact absurd (h.symm.trans hh) (by simp))
            (by intro hh; exact absurd (h.symm.trans hh) (by simp))]
        exact h

/-- C4 (amended): the level can decrease without `resume()` — a tick clears
Warning or Danger to Safe as soon as the reading exceeds
`min_obstacle_distance` (`_clear_obstacle_alerts`), a fresh sensor failure
overwrites even Emergency down to Danger, and chaining the two lets
Emergency reach Safe in two ticks with no resume (see the counterexample).
What remains of the claim is a single-tick guarantee: one monitoring tick
from an Emergency state never ends at Safe or Warning — it ends at Emergency
or Danger. -/
theorem tick_from_emergency_stays_high (d : Option ℚ) (r : Option String)
    (t : ℚ) (s : System) (h : s.safety.level = SafetyLevel.emergency) :
    (monitorTick d r t s).safety.level = SafetyLevel.emergency
      ∨ (monitorTick d r t s).safety.level = SafetyLevel.danger := by
  unfold monitorTick
  rcases check_comm_level_cases t (check_sensors d r t s) with h2 | h2
  · rw [h2]
    exact check_sensors_level_from_emergency d r t s h
  · exact Or.inr h2

theorem tick_from_emergency_stays_high_witness :
    ((manual_emergency_stop none 0 initSystem).2).safety.level = SafetyLevel.emergency
      ∧ ((monitorTick (some 100) none 0 (manual_emergency_stop none 0 initSystem).2).safety.level
            = SafetyLevel.emergency
        ∨ (monitorTick (some 100) none 0 (manual_emergency_stop none 0 initSystem).2).safety.level
            = SafetyLevel.danger) :=
  ⟨rfl, tick_from_emergency_stays_high (some 100) none 0 _ rfl⟩

/-- C4 (counterexample to the claim as stated): two tick-only de-escalations
with no `resume()` call anywhere.  First, from the initial state a tick
reading 12 raises the level to Warning and the very next tick reading 100
drops it back to Safe.  Second, from an Emergency state (manual trigger), a
tick with no reading overwrites the level down to Danger
(`_handle_sensor_failure`) and the next tick reading 100 clears Danger to
Safe (`_clear_obstacle_alerts`) — so even Emergency reaches Safe by ticks
alone, through Danger. -/
theorem level_decrease_without_resume_counterexample :
    ((monitorTick (some 12) none 0 initSystem).safety.level = SafetyLevel.warning
      ∧ (monitorTick (some 100) none 0
          (monitorTick (some 12) none 0 initSystem)).safety.level = SafetyLevel.safe)
    ∧ (((manual_emergency_stop none 0 initSystem).2).safety.level = SafetyLevel.emergency
      ∧ (monitorTick (some 100) none 0
          (monitorTick none none 0
            (manual_emergency_stop none 0 initSystem).2)).safety.level = SafetyLevel.safe) := by
  have h1 : monitorTick (some 12) none 0 initSystem
      = { cfg := { min_obstacle_distance := 15, emergency_stop_distance := 10 },
          safety := { level := SafetyLevel.warning, active_alerts := [], last_sensor_reading := 0, emergency_stops_count := 0, is_monitoring_active := true },
          motor := initSystem.motor } := by
    rw [tick_some]
    decide
  have h2 : monitorTick (some 100) none 0
      { cfg := { min_obstacle_distance := 15, emergency_stop_distance := 10 },
        safety := { level := SafetyLevel.warning, active_alerts := [], last_sensor_reading := 0, emergency_stops_count := 0, is_monitoring_active := true },
        motor := initSystem.motor }
      = { cfg := { min_obstacle_distance := 15, emergency_stop_distance := 10 },
          safety := { level := SafetyLevel.safe, active_alerts := [], last_sensor_reading := 0, emergency_stops_count := 0, is_monitoring_active := true },
          motor := initSystem.motor } := by
    rw [tick_some]
    decide
  have hE : (manual_emergency_stop none 0 initSystem).2
      = { cfg := { min_obstacle_distance := 15, emergency_stop_distance := 10 },
          safety := { level := SafetyLevel.emergency, active_alerts := [SafetyAlert.manual_emergency], last_sensor_reading := 0, emergency_stops_count := 1, is_monitoring_active := true },
          motor := { motor_state := { direction := MotorDirection.stop, speed := 0, is_moving := false, last_command_time := 0 }, is_emergency_stopped := true, max_speed := 100, base_speed := 40, log := ["STOP"] } } := by
    decide
  have hE2 : monitorTick none none 0
      { cfg := { min_obstacle_distance := 15, emergency_stop_distance := 10 },
        safety := { level := SafetyLevel.emergency, active_alerts := [SafetyAlert.manual_emergency], last_sensor_reading := 0, emergency_stops_count := 1, is_monitoring_active := true },
        motor := { motor_state := { direction := MotorDirection.stop, speed := 0, is_moving := false, last_command_time := 0 }, is_emergency_stopped := true, max_speed := 100, base_speed := 40, log := ["STOP"] } }
      = { cfg := { min_obstacle_distance := 15, emergency_stop_distance := 10 },
          safety := { level := SafetyLevel.danger, active_alerts := [SafetyAlert.manual_emergency, SafetyAlert.sensor_failure], last_sensor_reading := 0, emergency_stops_count := 1, is_monitoring_active := true },
          motor := { motor_state := { direction := MotorDirection.stop, speed := 0, is_moving := false, last_command_time := 0 }, is_emergency_stopped := true, max_speed := 100, base_speed := 40, log := ["STOP"] } } := by
    unfold monitorTick
    rw [show check_sensors none none 0
        { cfg := { min_obstacle_distance := 15, emergency_stop_distance := 10 },
          safety := { level := SafetyLevel.emergency, active_alerts := [SafetyAlert.manual_emergency], last_sensor_reading := 0, emergency_stops_count := 1, is_monitoring_active := true },
          motor := { motor_state := { direction := MotorDirection.stop, speed := 0, is_moving := false, last_command_time := 0 }, is_emergency_stopped := true, max_speed := 100, base_speed := 40, log := ["STOP"] } }
        = { cfg := { min_obstacle_distance := 15, emergency_stop_distance := 10 },
            safety := { level := SafetyLevel.danger, active_alerts := [SafetyAlert.manual_emergency, SafetyAlert.sensor_failure], last_sensor_reading := 0, emergency_stops_count := 1, is_monitoring_active := true },
            motor := { motor_state := { direction := MotorDirection.stop, speed := 0, is_moving := false, last_command_time := 0 }, is_emergency_stopped := true, max_speed := 100, base_speed := 40, log := ["STOP"] } }
      from by decide]
    exact check_comm_fresh 0 _ (by decide)
  have hE3 : monitorTick (some 100) none 0
      { cfg := { min_obstacle_distance := 15, emergency_stop_distance := 10 },
        safety := { level := SafetyLevel.danger, active_alerts := [SafetyAlert.manual_emergency, SafetyAlert.sensor_failure], last_sensor_reading := 0, emergency_stops_count := 1, is_monitoring_active := true },
        motor := { motor_state := { direction := MotorDirection.stop, speed := 0, is_moving := false, last_command_time := 0 }, is_emergency_stopped := true, max_speed := 100, base_speed := 40, log := ["STOP"] } }
      = { cfg := { min_obstacle_distance := 15, emergency_stop_distance := 10 },
          safety := { level := SafetyLevel.safe, active_alerts := [SafetyAlert.manual_emergency, SafetyAlert.sensor_failure], last_sensor_reading := 0, emergency_stops_count := 1, is_monitoring_active := true },
          motor := { motor_state := { direction := MotorDirection.stop, speed := 0, is_moving := false, last_command_time := 0 }, is_emergency_stopped := true, max_speed := 100, base_speed := 40, log := ["STOP"] } } := by
    rw [tick_some]
    decide
  refine ⟨⟨?_, ?_⟩, ?_, ?_⟩
  · rw [h1]
  · rw [h1, h2]
  · rw [hE]
  · rw [hE, hE2, hE3]

/-- C5 (amended): the scenario's reading must actually lie between the two
thresholds.  For a reading strictly above `emergency_stop_distance` and at
most `min_obstacle_distance` (e.g. 12.0), one tick from a Safe state yields
level Warning and does not touch the motor at all (latch stays false). -/
theorem tick_warning_band (d : ℚ) (r : Option String) (t : ℚ) (s : System)
    (h1 : s.cfg.emergency_stop_distance < d) (h2 : d ≤ s.cfg.min_obstacle_distance)
    (h3 : s.safety.level = SafetyLevel.safe) :
    (monitorTick (some d) r t s).safety.level = SafetyLevel.warning
      ∧ (monitorTick (some d) r t s).motor = s.motor := by
  rw [tick_some, check_sensors_warning_branch d r t s (not_le.mpr h1) h2]
  unfold handle_warning_obstacle
  dsimp only
  rw [if_pos h3]
  exact ⟨rfl, rfl⟩

theorem tick_warning_band_witness :
    (initSystem.cfg.emergency_stop_distance < (12 : ℚ))
      ∧ ((12 : ℚ) ≤ initSystem.cfg.min_obstacle_distance)
      ∧ initSystem.safety.level = SafetyLevel.safe
      ∧ ((monitorTick (some 12) none 0 initSystem).safety.level = SafetyLevel.warning
        ∧ (monitorTick (some 12) none 0 initSystem).motor = initSystem.motor) :=
  ⟨by decide, by decide, rfl,
   tick_warning_band 12 none 0 initSystem (by decide) (by decide) rfl⟩

/-- C5 (counterexample to the claim as stated): a reading of 25.0 is not
between 10 and 15 — it exceeds `min_obstacle_distance = 15`, so the tick
takes the clear branch: the level is Safe (not Warning) after the tick.
(The latch indeed stays false, as the claim says.) -/
theorem warning_at_25_counterexample :
    (monitorTick (some 25) none 0 initSystem).safety.level = SafetyLevel.safe
      ∧ (monitorTick (some 25) none 0 initSystem).motor.is_emergency_stopped = false := by
  have h : monitorTick (some 25) none 0 initSystem = initSystem := by
    rw [tick_some]
    decide
  rw [h]
  exact ⟨rfl, rfl⟩

/-!
## Lemmas about the shared-channel interleaving model
-/

theorem pendingWrites_write (cmd : String) (rest : List ChanAction) :
    pendingWrites ⟨ChanAction.write cmd :: rest⟩ = cmd :: pendingWrites ⟨rest⟩ := rfl

theorem pendingWrites_poll (cmd : String) (rest : List ChanAction) :
    pendingWrites ⟨ChanAction.poll cmd :: rest⟩ = pendingWrites ⟨rest⟩ := rfl

theorem runAction_eq_none (c : ChanState) (i : Nat) (h : c.tasks[i]? = none) :
    runAction c i = c := by
  simp [runAction, h]

theorem runAction_eq_done (c : ChanState) (i : Nat) (t : STask)
    (h : c.tasks[i]? = some t) (hp : t.pending = []) :
    runAction c i = c := by
  simp [runAction, h, hp]

theorem runAction_eq_write (c : ChanState) (i : Nat) (t : STask) (cmd : String)
    (rest : List ChanAction) (h : c.tasks[i]? = some t)
    (hp : t.pending = ChanAction.write cmd :: rest) :
    runAction c i = { tasks := c.tasks.set i ⟨rest⟩, log := c.log ++ [cmd] } := by
  simp [runAction, h, hp]

theorem runAction_eq_poll (c : ChanState) (i : Nat) (t : STask) (cmd : String)
    (rest : List ChanAction) (h : c.tasks[i]? = some t)
    (hp : t.pending = ChanAction.poll cmd :: rest) :
    runAction c i = { tasks := c.tasks.set i ⟨rest⟩, log := c.log } := by
  simp [runAction, h, hp]

/-- Replacing the `i`-th caller changes only that caller's contribution to
the outstanding command lines: the surrounding contributions `X` and `Y` are
unchanged. -/
theorem join_map_set (l : List STask) (i : Nat) (t : STask)
    (h : l[i]? = some t) :
    ∃ X Y, (l.map pendingWrites).join = X ++ (pendingWrites t ++ Y)
      ∧ ∀ x : STask, ((l.set i x).map pendingWrites).join = X ++ (pendingWrites x ++ Y) := by
  induction l generalizing i with
  | nil => simp at h
  | cons hd tl ih =>
    cases i with
    | zero =>
      rw [List.getElem?_cons_zero, Option.some_inj] at h
      subst h
      exact ⟨[], (tl.map pendingWrites).join, by simp, fun x => by simp⟩
    | succ n =>
      rw [List.getElem?_cons_succ] at h
      obtain ⟨X, Y, h1, h2⟩ := ih n h
      refine ⟨pendingWrites hd ++ X, Y, ?_, fun x => ?_⟩
      · show pendingWrites hd ++ (List.map pendingWrites tl).join
          = (pendingWrites hd ++ X) ++ (pendingWrites t ++ Y)
        rw [h1, List.append_assoc]
      · show pendingWrites hd ++ (List.map pendingWrites (tl.set n x)).join
          = (pendingWrites hd ++ X) ++ (pendingWrites x ++ Y)
        rw [h2 x, List.append_assoc]

theorem runAction_perm (c : ChanState) (i : Nat) :
    List.Perm ((runAction c i).log ++ outstanding (runAction c i))
      (c.log ++ outstanding c) := by
  cases h : c.tasks[i]? with
  | none =>
    rw [runAction_eq_none c i h]
  | some t =>
    obtain ⟨X, Y, h1, h2⟩ := join_map_set c.tasks i t h
    cases hp : t.pending with
    | nil =>
      rw [runAction_eq_done c i t h hp]
    | cons a rest =>
      cases a with
      | write cmd =>
        rw [runAction_eq_write c i t cmd rest h hp]
        have hpt : pendingWrites t = cmd :: pendingWrites ⟨rest⟩ := by
          simp [pendingWrites, hp]
        unfold outstanding
        dsimp only
        rw [h2 ⟨rest⟩, h1, hpt]
        have hL : (c.log ++ [cmd]) ++ (X ++ (pendingWrites ⟨rest⟩ ++ Y))
            = c.log ++ (cmd :: (X ++ (pendingWrites ⟨rest⟩ ++ Y))) := by simp
        rw [hL]
        exact List.Perm.append_left c.log List.perm_middle.symm
      | poll cmd =>
        rw [runAction_eq_poll c i t cmd rest h hp]
        have hpt : pendingWrites t = pendingWrites ⟨rest⟩ := by
          simp [pendingWrites, hp]
        unfold outstanding
        dsimp only
        rw [h2 ⟨rest⟩, h1, hpt]

theorem runSched_perm (sch : List Nat) (c : ChanState) :
    List.Perm ((runSched c sch).log ++ outstanding (runSched c sch))
      (c.log ++ outstanding c) := by
  induction sch generalizing c with
  | nil => exact List.Perm.refl _
  | cons i rest ih => exact (ih (runAction c i)).trans (runAction_perm c i)

theorem join_pendingWrites_nil (l : List STask)
    (h : (l.all fun t => t.pending.isEmpty) = true) :
    (l.map pendingWrites).join = [] := by
  induction l with
  | nil => rfl
  | cons hd tl ih =>
    rw [List.all_cons, Bool.and_eq_true] at h
    have h1 : pendingWrites hd = [] := by
      cases hp : hd.pending with
      | nil => simp [pendingWrites, hp]
      | cons a rest =>
        rw [hp] at h
        exact absurd h.1 (by simp)
    simp [h1, ih h.2]

theorem outstanding_of_allDone (c : ChanState) (h : allDone c = true) :
    outstanding c = [] :=
  join_pendingWrites_nil c.tasks h

theorem join_map_sendProg : ∀ cmds : List String,
    (List.map pendingWrites (List.map (fun c => (⟨sendProg c⟩ : STask)) cmds)).join = cmds
  | [] => rfl
  | c :: cs => by
    show [c] ++ (List.map pendingWrites (List.map (fun c => (⟨sendProg c⟩ : STask)) cs)).join
      = c :: cs
    rw [join_map_sendProg cs]
    rfl

theorem outstanding_chanInitN (cmds : List String) :
    outstanding (chanInitN cmds) = cmds := by
  unfold outstanding chanInitN
  exact join_map_sendProg cmds

/-- C8 (amended): for every number N of commands issued concurrently through
the Motor, LED and Sensor callers of the shared channel and every asyncio
schedule that lets all the callers finish, exactly N channel writes occur:
the completed write log is a permutation of the N submitted command lines,
each written atomically as one whole line (no suspension point occurs inside
`_send_command`'s write block, so lines are never interleaved mid-line), in
the order the scheduler lets the callers reach their writes.  The
exclusivity/queueing half of the original claim is false — see the
counterexample — because `_send_command` takes no lock (`_connection_lock`
guards only `initialize`) and `_command_queue` is never used. -/
theorem channel_writes_complete_lines (cmds : List String) (sch : List Nat)
    (h : allDone (runSched (chanInitN cmds) sch) = true) :
    List.Perm ((runSched (chanInitN cmds) sch).log) cmds
      ∧ ((runSched (chanInitN cmds) sch).log).length = cmds.length := by
  have hp := runSched_perm sch (chanInitN cmds)
  rw [outstanding_of_allDone _ h, List.append_nil, outstanding_chanInitN] at hp
  have hperm : List.Perm ((runSched (chanInitN cmds) sch).log) cmds := by
    simpa [chanInitN] using hp
  exact ⟨hperm, hperm.length_eq⟩

theorem channel_writes_complete_lines_witness :
    allDone (runSched (chanInitN [motorCmd, ledCmd, sensorCmd]) [0, 0, 1, 1, 2, 2]) = true
      ∧ (List.Perm ((runSched (chanInitN [motorCmd, ledCmd, sensorCmd]) [0, 0, 1, 1, 2, 2]).log)
            [motorCmd, ledCmd, sensorCmd]
        ∧ ((runSched (chanInitN [motorCmd, ledCmd, sensorCmd]) [0, 0, 1, 1, 2, 2]).log).length
            = [motorCmd, ledCmd, sensorCmd].length) :=
  ⟨by decide,
   channel_writes_complete_lines [motorCmd, ledCmd, sensorCmd] [0, 0, 1, 1, 2, 2] (by decide)⟩

/-- C8 (counterexample to the exclusivity half of the claim): the schedule
in which task 0 writes its line and suspends in its response-poll loop
(`await asyncio.sleep`, motor_controller.py:166), after which task 1 runs
and writes its own line, reaches a state with two commands in flight at
once — `_send_command` acquires no lock, so nothing forces "exactly one
command in flight at a time". -/
theorem two_commands_in_flight_counterexample :
    inFlightCount (runSched (chanInitN [motorCmd, ledCmd]) [0, 1]) = 2 := by decide

end RobotAi
